import Mathlib

/-!
Verification of the task-to-issue conversion script
(`.github/create_issues/create_github_issues.py`).

Python strings are modelled as lists of characters (`Str`), so that the
string operations the script uses (`upper`, `lower`, `replace`, `strip`,
`split`, substring membership, concatenation) become concrete executable
list functions, with the `lit` helper injecting Lean string literals.
The script's classes are modelled as plain functions: the payload
formatter (`create_issue_body`, `get_labels_for_task`, `issue_data`),
the CSV reader (`read_tasks_from_csv`) over an abstract file that is
either absent or a header plus data rows, and the batch orchestrator
(`process_all_tasks`), with the GitHub HTTP responses abstracted as a
per-call response function supplied by the environment.
-/

/-- Python strings, modelled as lists of characters. -/
abbrev Str := List Char

/-- Injection of a Lean string literal into the model. -/
def lit (s : String) : Str := s.data

/-- Python `str.upper()` (ASCII, as used by the script's data). -/
def pyUpper (s : Str) : Str := s.map Char.toUpper

/-- Python `str.lower()` (ASCII, as used by the script's data). -/
def pyLower (s : Str) : Str := s.map Char.toLower

/-- Python `str.replace(" ", "-")`: a single-character pattern replace,
which rewrites every space to a hyphen. -/
def spaceToHyphen (s : Str) : Str := s.map (fun c => if c = ' ' then '-' else c)

/-- Python `str.strip()`: drop whitespace from both ends. -/
def pyStrip (s : Str) : Str :=
  ((s.dropWhile Char.isWhitespace).reverse.dropWhile Char.isWhitespace).reverse

/-- Python `s.split(", ")`: cut the string at every non-overlapping
occurrence of the two-character separator comma-space, scanning left to
right. -/
def splitCommaSpace : Str → List Str
  | [] => [[]]
  | [c] => [[c]]
  | c1 :: c2 :: rest =>
    if c1 = ',' ∧ c2 = ' ' then [] :: splitCommaSpace rest
    else
      match splitCommaSpace (c2 :: rest) with
      | [] => [[c1]]
      | p :: ps => (c1 :: p) :: ps

/-- One row of the tasks CSV, as loaded by `read_tasks_from_csv`
(the `Task` dataclass of the script). -/
structure TaskRecord where
  task_id : Str
  task_name : Str
  phase : Str
  week : Str
  duration : Str
  assignee : Str
  dependencies : Str
  priority : Str
  status : Str
  start_date : Str
  end_date : Str
  deliverables : Str
  acceptance_criteria : Str
  automation_category : Str
  manus_tasks : Str
  human_tasks : Str
  notes : Str
deriving DecidableEq

/-- Fixed boilerplate block injected when the automation category is
`HUMAN` (the first branch of `create_issue_body`). -/
def humanSection : Str := lit "\n## Description\nBrief description of what needs to be done by a human team member.\n\n**HUMAN Only:** This task requires human intervention for strategic decisions, user research, or quality validation.\n\n## Human Actions Required\n- [ ] Account setup/management\n- [ ] Strategic decisions\n- [ ] User research\n- [ ] Quality validation\n- [ ] Legal/compliance review\n- [ ] Other: ___________"

/-- Definition-of-Done checklist paired with the `HUMAN` branch. -/
def humanDoD : Str := lit "\n## Definition of Done\n- [ ] Documentation updated\n- [ ] All required actions completed\n- [ ] Next steps identified\n- [ ] Stakeholders notified"

/-- Fixed boilerplate block injected when the automation category is
`MANUS` (the second branch of `create_issue_body`). -/
def manusSection : Str := lit "\n## Description\nBrief description of what needs to be implemented using AI automation.\n\n**MANUS Only:** This task can be fully automated using AI tools and does not require human intervention.\n\n## Manus Implementation Required\n- [ ] Code generation\n- [ ] Configuration files\n- [ ] Documentation\n- [ ] Testing framework\n- [ ] Other: ___________"

/-- Definition-of-Done checklist paired with the `MANUS` branch. -/
def manusDoD : Str := lit "\n## Definition of Done\n- [ ] Code implemented and tested\n- [ ] Tests passing\n- [ ] Ready for human review"

/-- Fixed boilerplate block injected when the automation category is
`SPLIT` (the third branch of `create_issue_body`). -/
def splitSection : Str := lit "\n## Description\nBrief description of what needs to be done through combined human and AI efforts.\n\n**SPLIT Only:** This task is split between human and AI efforts.\n\n## Split Implementation Required\n- [ ] Manus automation\n- [ ] Human oversight\n- [ ] Integration validation\n- [ ] Other: ___________"

/-- Definition-of-Done checklist paired with the `SPLIT` branch. -/
def splitDoD : Str := lit "\n## Definition of Done\n- [ ] Manus automation completed\n- [ ] Human oversight completed\n- [ ] Integration validated\n- [ ] Ready for next phase"

/-- The `automation_section` local variable of `create_issue_body`:
a three-way branch on the uppercased automation category, defaulting to
the empty string. -/
def automation_section (t : TaskRecord) : Str :=
  if pyUpper t.automation_category = lit "HUMAN" then humanSection
  else if pyUpper t.automation_category = lit "MANUS" then manusSection
  else if pyUpper t.automation_category = lit "SPLIT" then splitSection
  else []

/-- The `definition_of_done` local variable of `create_issue_body`:
set by the same three-way branch, defaulting to the empty string. -/
def definition_of_done (t : TaskRecord) : Str :=
  if pyUpper t.automation_category = lit "HUMAN" then humanDoD
  else if pyUpper t.automation_category = lit "MANUS" then manusDoD
  else if pyUpper t.automation_category = lit "SPLIT" then splitDoD
  else []

/-- The `deliverables_list` / `acceptance_criteria_list` construction of
`create_issue_body`: when the field is non-empty, split it on `", "` and
render each stripped piece as one markdown checkbox line. -/
def checklist (s : Str) : List Str :=
  if s = [] then []
  else (splitCommaSpace s).map (fun e => lit "- [ ] " ++ pyStrip e)

/-- The rendering `chr(10).join(lines) if lines else "- [ ] To be defined"`
used for both the Deliverables and the Acceptance Criteria section. -/
def checklistSection (s : Str) : Str :=
  if checklist s = [] then lit "- [ ] To be defined"
  else List.intercalate (lit "\n") (checklist s)

/-- The Dependencies line: `f"- {task.dependencies}"` or `"None"`. -/
def dependenciesLine (t : TaskRecord) : Str :=
  if t.dependencies = [] then lit "None" else lit "- " ++ t.dependencies

/-- The Notes line: the field verbatim or `"No additional notes"`. -/
def notesLine (t : TaskRecord) : Str :=
  if t.notes = [] then lit "No additional notes" else t.notes

/-- The part of the body template before `{automation_section}`. -/
def bodyOverview (t : TaskRecord) : Str :=
  lit "## Task Overview\n**Task ID:** " ++ t.task_id ++
  lit "\n**Phase:** " ++ t.phase ++
  lit "\n**Week:** " ++ t.week ++
  lit "\n**Duration:** " ++ t.duration ++
  lit " days\n**Priority:** " ++ t.priority ++ lit "\n"

/-- The part of the body template between `{automation_section}` and
`{definition_of_done}`. -/
def bodyMiddle (t : TaskRecord) : Str :=
  lit "\n\n## Deliverables\n" ++ checklistSection t.deliverables ++
  lit "\n\n## Acceptance Criteria\n" ++ checklistSection t.acceptance_criteria ++
  lit "\n\n## Dependencies\nList any tasks that must be completed before this one:\n" ++
  dependenciesLine t ++
  lit "\n\n## Resources Needed\n- Access to: ___________\n- Credentials for: ___________\n- Approval from: ___________\n\n## Notes\n" ++
  notesLine t ++ lit "\n"

/-- The part of the body template after `{definition_of_done}`. -/
def bodyFooter (t : TaskRecord) : Str :=
  lit "\n\n---\n\n**Start Date:** " ++ t.start_date ++
  lit "  \n**End Date:** " ++ t.end_date ++
  lit "  \n**Assignee:** " ++ t.assignee ++
  lit "  \n**Status:** " ++ t.status ++ lit "  \n"

/-- `GitHubIssueCreator.create_issue_body`: the full f-string template. -/
def create_issue_body (t : TaskRecord) : Str :=
  bodyOverview t ++ automation_section t ++ bodyMiddle t ++
  definition_of_done t ++ bodyFooter t

/-- The status label `f"status:{task.status.lower().replace(' ', '-')}"`. -/
def statusLabel (s : Str) : Str := lit "status:" ++ spaceToHyphen (pyLower s)

/-- The status contribution to the label list (guarded by `if task.status:`). -/
def statusPart (t : TaskRecord) : List Str :=
  if t.status = [] then [] else [statusLabel t.status]

/-- The phase contribution to the label list (guarded by `if task.phase:`). -/
def phasePart (t : TaskRecord) : List Str :=
  if t.phase = [] then [] else [lit "phase:" ++ t.phase]

/-- The automation-category contribution to the label list. -/
def autoPart (t : TaskRecord) : List Str :=
  if t.automation_category = [] then []
  else [lit "automation:" ++ pyLower t.automation_category]

/-- The assignee contribution to the label list: five case-insensitive
substring tests against the lowercased assignee text, each appending a
fixed role label. -/
def rolePart (t : TaskRecord) : List Str :=
  if t.assignee = [] then []
  else
    (if lit "technical lead" <:+: pyLower t.assignee then [lit "role:technical-lead"] else []) ++
    (if lit "ai/ml engineer" <:+: pyLower t.assignee then [lit "role:ai-ml-engineer"] else []) ++
    (if lit "frontend developer" <:+: pyLower t.assignee then [lit "role:frontend-developer"] else []) ++
    (if lit "product manager" <:+: pyLower t.assignee then [lit "role:product-manager"] else []) ++
    (if lit "devops engineer" <:+: pyLower t.assignee then [lit "role:devops-engineer"] else [])

/-- `GitHubIssueCreator.get_labels_for_task`: the sequential appends of
the status, phase, automation and role labels, then the generic `task`
label. -/
def get_labels_for_task (t : TaskRecord) : List Str :=
  statusPart t ++ phasePart t ++ autoPart t ++ rolePart t ++ [lit "task"]

/-- The payload (`issue_data` dict) submitted for one issue. -/
structure IssuePayload where
  title : Str
  body : Str
  labels : List Str
deriving DecidableEq

/-- The `issue_data` dict built by `GitHubIssueCreator.create_issue`. -/
def issue_data (t : TaskRecord) : IssuePayload :=
  { title := t.task_id ++ lit ": [" ++ pyUpper t.automation_category ++ lit "] " ++ t.task_name
    body := create_issue_body t
    labels := get_labels_for_task t }

/-- Fatal input errors of the record reader (both lead to `sys.exit(1)`). -/
inductive ReadError where
  | inputNotFound
  | inputMalformed
deriving DecidableEq

/-- A delimited tabular input file: a header row and data rows. -/
structure Csv where
  header : List Str
  rows : List (List Str)
deriving DecidableEq

/-- The columns `read_tasks_from_csv` reads from each row dict, in the
order the `Task` constructor consumes them. -/
def requiredColumns : List Str :=
  [lit "Task ID", lit "Task Name", lit "Phase", lit "Week",
   lit "Duration (Days)", lit "Assignee", lit "Dependencies",
   lit "Priority", lit "Status", lit "Start Date", lit "End Date",
   lit "Deliverables", lit "Acceptance Criteria", lit "Automation Category",
   lit "Manus Tasks", lit "Human Tasks", lit "Notes"]

/-- Lookup of one column in one `csv.DictReader` row dict: `none` models
the `KeyError` raised when the column is absent from the header; a row
shorter than the header yields the reader's default value for the
trailing columns. -/
def rowGet : List Str → List Str → Str → Option Str
  | [], _, _ => none
  | h :: hs, [], col => if h = col then some [] else rowGet hs [] col
  | h :: hs, v :: vs, col => if h = col then some v else rowGet hs vs col

/-- Construction of one `Task` from one row dict: look the required
columns up in sequence, failing like the `KeyError` of the script
(caught as a fatal CSV-reading error) as soon as one is absent from the
header, and otherwise populate the record fields with the looked-up
values in the constructor's column order. -/
def readTask (header row : List Str) : Option TaskRecord :=
  (requiredColumns.mapM (rowGet header row)).map fun vs =>
    { task_id := vs.getD 0 []
      task_name := vs.getD 1 []
      phase := vs.getD 2 []
      week := vs.getD 3 []
      duration := vs.getD 4 []
      assignee := vs.getD 5 []
      dependencies := vs.getD 6 []
      priority := vs.getD 7 []
      status := vs.getD 8 []
      start_date := vs.getD 9 []
      end_date := vs.getD 10 []
      deliverables := vs.getD 11 []
      acceptance_criteria := vs.getD 12 []
      automation_category := vs.getD 13 []
      manus_tasks := vs.getD 14 []
      human_tasks := vs.getD 15 []
      notes := vs.getD 16 [] }

/-- `GitHubIssueCreator.read_tasks_from_csv`: a missing file
(`FileNotFoundError`) is fatal, and a `KeyError` on any row (missing
required column) is fatal; otherwise the records are returned in file
row order. -/
def read_tasks_from_csv (file : Option Csv) : Except ReadError (List TaskRecord) :=
  match file with
  | none => .error .inputNotFound
  | some csv =>
    match csv.rows.mapM (readTask csv.header) with
    | none => .error .inputMalformed
    | some ts => .ok ts

/-- One GitHub HTTP response, abstracted: a status code or a raised
transport exception. -/
inductive BootResp where
  | status (code : Nat)
  | exc
deriving DecidableEq

/-- How the script reacts to one label/milestone creation response:
`201` is a creation, `422` is logged as already existing, any other
status is logged as a failure, and an exception is logged as an error.
In every case the loop continues. -/
inductive BootOutcome where
  | created
  | alreadyExists
  | failed
  | errored
deriving DecidableEq

/-- Whether an outcome is logged with the failure marker `✗`. -/
def BootOutcome.isFailure : BootOutcome → Bool
  | .failed => true
  | .errored => true
  | _ => false

/-- Classification of one response by `create_labels` /
`create_milestone`. -/
def bootOutcome (r : BootResp) : BootOutcome :=
  match r with
  | .status c => if c = 201 then .created else if c = 422 then .alreadyExists else .failed
  | .exc => .errored

/-- One entry of the fixed label catalog. -/
structure LabelSpec where
  name : Str
  color : Str
  description : Str
deriving DecidableEq

/-- The fixed `labels_to_create` catalog of `create_labels`. -/
def labels_to_create : List LabelSpec :=
  [⟨lit "priority:high", lit "d73a4a", lit "High priority task"⟩,
   ⟨lit "priority:medium", lit "fbca04", lit "Medium priority task"⟩,
   ⟨lit "priority:low", lit "0e8a16", lit "Low priority task"⟩,
   ⟨lit "phase:1", lit "1f77b4", lit "Phase 1 task"⟩,
   ⟨lit "phase:2", lit "ff7f0e", lit "Phase 2 task"⟩,
   ⟨lit "phase:3", lit "2ca02c", lit "Phase 3 task"⟩,
   ⟨lit "phase:4", lit "d62728", lit "Phase 4 task"⟩,
   ⟨lit "status:todo", lit "e4e669", lit "Task not started"⟩,
   ⟨lit "status:in-progress", lit "0052cc", lit "Task in progress"⟩,
   ⟨lit "status:closed", lit "0e8a16", lit "Task completed"⟩,
   ⟨lit "status:blocked", lit "d73a4a", lit "Task blocked"⟩,
   ⟨lit "automation:manus", lit "8b5cf6", lit "Can be automated by Manus"⟩,
   ⟨lit "automation:human", lit "f59e0b", lit "Requires human intervention"⟩,
   ⟨lit "automation:split", lit "06b6d4", lit "Mixed automation and human tasks"⟩,
   ⟨lit "role:technical-lead", lit "ff6b6b", lit "Technical Lead tasks"⟩,
   ⟨lit "role:ai-ml-engineer", lit "4ecdc4", lit "AI/ML Engineer tasks"⟩,
   ⟨lit "role:frontend-developer", lit "45b7d1", lit "Frontend Developer tasks"⟩,
   ⟨lit "role:product-manager", lit "f9ca24", lit "Product Manager tasks"⟩,
   ⟨lit "role:devops-engineer", lit "6c5ce7", lit "DevOps Engineer tasks"⟩,
   ⟨lit "task", lit "7057ff", lit "General task"⟩]

/-- `GitHubIssueCreator.create_labels`: posts every catalog entry in
order and logs one outcome per entry; no response value can stop the
loop. -/
def create_labels (respond : Nat → BootResp) : List (LabelSpec × BootOutcome) :=
  labels_to_create.enum.map (fun p => (p.2, bootOutcome (respond p.1)))

/-- One entry of the fixed milestone catalog. -/
structure MilestoneSpec where
  name : Str
  description : Str
  due_date : Str
deriving DecidableEq

/-- The fixed catalog of `create_milestones`. -/
def milestones : List MilestoneSpec :=
  [⟨lit "Phase 1: Core Backend Development",
    lit "Foundation setup and core processing functions",
    lit "2025-08-14T23:59:59Z"⟩,
   ⟨lit "Phase 2: WhatsApp Integration",
    lit "WhatsApp integration and enhanced features",
    lit "2025-09-13T23:59:59Z"⟩,
   ⟨lit "Phase 3: Multi-Platform Expansion",
    lit "Google Assistant integration and legacy features",
    lit "2025-11-07T23:59:59Z"⟩,
   ⟨lit "Phase 4: Advanced AI and Launch",
    lit "Machine learning integration and production launch",
    lit "2025-12-30T23:59:59Z"⟩]

/-- `GitHubIssueCreator.create_milestones`: posts every milestone in
order via `create_milestone`, which classifies the response exactly as
the label loop does and never propagates a failure. -/
def create_milestones (respond : Nat → BootResp) : List (MilestoneSpec × BootOutcome) :=
  milestones.enum.map (fun p => (p.2, bootOutcome (respond p.1)))

/-- Summary counters printed at the end of `process_all_tasks`. -/
structure RunSummary where
  succeeded : Nat
  failed : Nat
  total : Nat
deriving DecidableEq

/-- The issue-creation loop of `process_all_tasks`: one
`create_issue` call per record, in order; the i-th submission succeeds
when the tracker answers `201` (modelled by `respond i = true`); a
failure only increments the failure counter. Returns the counters and
the submitted payloads in submission order. -/
def issuesLoopFrom (respond : Nat → Bool) : List TaskRecord → Nat → (Nat × Nat) × List IssuePayload
  | [], _ => ((0, 0), [])
  | t :: ts, i =>
    let r := issuesLoopFrom respond ts (i + 1)
    if respond i then ((r.1.1 + 1, r.1.2), issue_data t :: r.2)
    else ((r.1.1, r.1.2 + 1), issue_data t :: r.2)

/-- The tail of `process_all_tasks` after the bootstrap: run the issue
loop and assemble the printed summary (`len(tasks)` as total). -/
def run_tasks (tasks : List TaskRecord) (respond : Nat → Bool) : RunSummary × List IssuePayload :=
  let r := issuesLoopFrom respond tasks 0
  (⟨r.1.1, r.1.2, tasks.length⟩, r.2)

/-- One HTTP call made to the tracker, in order of emission. -/
inductive TCall where
  | label (name : Str)
  | milestone (title : Str)
  | issue (p : IssuePayload)
deriving DecidableEq

/-- `GitHubIssueCreator.process_all_tasks`: read the records (a fatal
read error stops the run before any tracker call), then bootstrap all
labels and milestones, then submit one issue per record. Returns the
full ordered trace of tracker calls together with the run result. -/
def process_all_tasks (file : Option Csv) (respond : Nat → Bool) :
    List TCall × Except ReadError RunSummary :=
  match read_tasks_from_csv file with
  | .error e => ([], .error e)
  | .ok tasks =>
    let r := run_tasks tasks respond
    (labels_to_create.map (fun l => TCall.label l.name) ++
     milestones.map (fun m => TCall.milestone m.name) ++
     r.2.map TCall.issue,
     .ok r.1)

/-- Case-insensitive equality of two Python strings: they agree after
case folding. -/
def ciEqual (a b : Str) : Prop := pyUpper a = pyUpper b

instance (a b : Str) : Decidable (ciEqual a b) :=
  inferInstanceAs (Decidable (pyUpper a = pyUpper b))

/-- The fixed keyword table of the assignee-to-role-label matching, as
the spec presents it: each keyword paired with the label it
contributes. -/
def roleTable : List (Str × Str) :=
  [(lit "technical lead", lit "role:technical-lead"),
   (lit "ai/ml engineer", lit "role:ai-ml-engineer"),
   (lit "frontend developer", lit "role:frontend-developer"),
   (lit "product manager", lit "role:product-manager"),
   (lit "devops engineer", lit "role:devops-engineer")]

/-- Python `s.split(",")`: cut the string at every comma. -/
def splitComma : Str → List Str
  | [] => [[]]
  | c :: rest =>
    if c = ',' then [] :: splitComma rest
    else
      match splitComma rest with
      | [] => [[c]]
      | p :: ps => (c :: p) :: ps

/-- Rendering of a checklist section as the claim words it: one
markdown checkbox line per comma-separated entry of the field, each
entry with surrounding whitespace trimmed, and a single placeholder
line for an empty field. Stated from the claim's words, to be compared
with the `checklist` function transcribed from the code. -/
def specCommaChecklist (s : Str) : List Str :=
  if s = [] then [lit "- [ ] To be defined"]
  else (splitComma s).map (fun e => lit "- [ ] " ++ pyStrip e)

/-- A record with every field empty, used to build concrete witnesses. -/
def blankTask : TaskRecord :=
  ⟨[], [], [], [], [], [], [], [], [], [], [], [], [], [], [], [], []⟩

/-- A record whose automation category is `Human` (mixed case). -/
def tHuman : TaskRecord := { blankTask with automation_category := lit "Human" }

/-- A record whose automation category is `maNus` (mixed case). -/
def tManus : TaskRecord := { blankTask with automation_category := lit "maNus" }

/-- A record whose automation category is `SpLiT` (mixed case). -/
def tSplit : TaskRecord := { blankTask with automation_category := lit "SpLiT" }

/-- A record with an unknown automation category. -/
def tOther : TaskRecord := { blankTask with automation_category := lit "robot" }

/-- A record with two deliverables and no acceptance criteria. -/
def tDeliv : TaskRecord := { blankTask with deliverables := lit "a, b" }

/-- A record whose assignee names two roles. -/
def tBoth : TaskRecord :=
  { blankTask with assignee := lit "Technical Lead & Product Manager" }

/-- A record with status `In Progress`. -/
def tProg : TaskRecord := { blankTask with status := lit "In Progress" }

/-- An input file whose header lacks every required column and which
carries one data row. -/
def badCsv : Csv := ⟨[lit "Wrong"], [[lit "x"]]⟩

/-- An input file whose header lacks every required column and which
carries no data row at all. -/
def emptyBadCsv : Csv := ⟨[lit "Wrong"], []⟩

lemma mem_ite_singleton {c : Prop} [Decidable c] {L x : Str} :
    x ∈ (if c then [L] else []) ↔ c ∧ x = L := by
  split
  · rename_i hc; simp [hc]
  · rename_i hc; simp [hc]

lemma mem_statusPart {t : TaskRecord} : ∀ x ∈ statusPart t, lit "status:" <+: x := by
  unfold statusPart
  split
  · simp
  · intro x hx
    simp only [List.mem_singleton] at hx
    subst hx
    exact ⟨spaceToHyphen (pyLower t.status), rfl⟩

lemma mem_phasePart {t : TaskRecord} : ∀ x ∈ phasePart t, lit "phase:" <+: x := by
  unfold phasePart
  split
  · simp
  · intro x hx
    simp only [List.mem_singleton] at hx
    subst hx
    exact ⟨t.phase, rfl⟩

lemma mem_autoPart {t : TaskRecord} : ∀ x ∈ autoPart t, lit "automation:" <+: x := by
  unfold autoPart
  split
  · simp
  · intro x hx
    simp only [List.mem_singleton] at hx
    subst hx
    exact ⟨pyLower t.automation_category, rfl⟩

lemma mem_rolePart {t : TaskRecord} : ∀ x ∈ rolePart t, lit "role:" <+: x := by
  unfold rolePart
  split
  · simp
  · intro x hx
    simp only [List.mem_append, mem_ite_singleton] at hx
    rcases hx with (((⟨_, rfl⟩ | ⟨_, rfl⟩) | ⟨_, rfl⟩) | ⟨_, rfl⟩) | ⟨_, rfl⟩ <;> decide

lemma not_mem_of_starts {p L : Str} {l : List Str}
    (hl : ∀ x ∈ l, p <+: x) (hnp : ¬ p <+: L) : L ∉ l :=
  fun hL => hnp (hl L hL)

lemma disjoint_of_starts {p q : Str} {l₁ l₂ : List Str}
    (h₁ : ∀ x ∈ l₁, p <+: x) (h₂ : ∀ x ∈ l₂, q <+: x)
    (hpq : ¬ p <+: q) (hqp : ¬ q <+: p) : l₁.Disjoint l₂ := by
  intro x hx hx'
  rcases List.prefix_or_prefix_of_prefix (h₁ x hx) (h₂ x hx') with h | h
  · exact hpq h
  · exact hqp h

lemma labels_mem_cases {t : TaskRecord} {l : Str} (hl : l ∈ get_labels_for_task t) :
    l ∈ statusPart t ∨ l ∈ phasePart t ∨ l ∈ autoPart t ∨ l ∈ rolePart t ∨
    l = lit "task" := by
  simpa only [get_labels_for_task, List.mem_append, List.mem_singleton, or_assoc] using hl

lemma disjoint_task {p : Str} {l : List Str} (hl : ∀ x ∈ l, p <+: x)
    (h : ¬ p <+: lit "task") : l.Disjoint [lit "task"] := by
  intro x hx hmem
  simp only [List.mem_singleton] at hmem
  subst hmem
  exact h (hl _ hx)

/-- C9: for every TaskRecord, regardless of the values of all other
fields (including all fields empty), the generated label list contains
exactly one instance of the literal label `task`. -/
theorem C9_generic_task_label (t : TaskRecord) :
    (get_labels_for_task t).count (lit "task") = 1 := by
  have hs : lit "task" ∉ statusPart t :=
    not_mem_of_starts (@mem_statusPart t) (by decide)
  have hp : lit "task" ∉ phasePart t :=
    not_mem_of_starts (@mem_phasePart t) (by decide)
  have ha : lit "task" ∉ autoPart t :=
    not_mem_of_starts (@mem_autoPart t) (by decide)
  have hr : lit "task" ∉ rolePart t :=
    not_mem_of_starts (@mem_rolePart t) (by decide)
  simp [get_labels_for_task, List.count_append, List.count_eq_zero.mpr,
    List.count_eq_zero.mpr hs, List.count_eq_zero.mpr hp,
    List.count_eq_zero.mpr ha, List.count_eq_zero.mpr hr]

/-- C10: for every TaskRecord, the label list produced by the label
generator contains no duplicate entries, and its last element is always
the literal label `task`. -/
theorem C10_labels_nodup_task_last (t : TaskRecord) :
    (get_labels_for_task t).Nodup ∧
    (get_labels_for_task t).getLast? = some (lit "task") := by
  constructor
  · have hS : (statusPart t).Nodup := by unfold statusPart; split <;> simp
    have hP : (phasePart t).Nodup := by unfold phasePart; split <;> simp
    have hA : (autoPart t).Nodup := by unfold autoPart; split <;> simp
    have hR : (rolePart t).Nodup := by
      unfold rolePart
      split
      · simp
      · split_ifs <;> decide
    have dSP := disjoint_of_starts (@mem_statusPart t) (@mem_phasePart t)
      (by decide) (by decide)
    have dSA := disjoint_of_starts (@mem_statusPart t) (@mem_autoPart t)
      (by decide) (by decide)
    have dSR := disjoint_of_starts (@mem_statusPart t) (@mem_rolePart t)
      (by decide) (by decide)
    have dPA := disjoint_of_starts (@mem_phasePart t) (@mem_autoPart t)
      (by decide) (by decide)
    have dPR := disjoint_of_starts (@mem_phasePart t) (@mem_rolePart t)
      (by decide) (by decide)
    have dAR := disjoint_of_starts (@mem_autoPart t) (@mem_rolePart t)
      (by decide) (by decide)
    have dST := disjoint_task (@mem_statusPart t) (by decide)
    have dPT := disjoint_task (@mem_phasePart t) (by decide)
    have dAT := disjoint_task (@mem_autoPart t) (by decide)
    have dRT := disjoint_task (@mem_rolePart t) (by decide)
    have n1 : (statusPart t ++ phasePart t).Nodup :=
      List.Nodup.append hS hP dSP
    have n2 : (statusPart t ++ phasePart t ++ autoPart t).Nodup :=
      List.Nodup.append n1 hA
        (by rw [List.disjoint_append_left]; exact ⟨dSA, dPA⟩)
    have n3 : (statusPart t ++ phasePart t ++ autoPart t ++ rolePart t).Nodup :=
      List.Nodup.append n2 hR
        (by rw [List.disjoint_append_left, List.disjoint_append_left]
            exact ⟨⟨dSR, dPR⟩, dAR⟩)
    have n4 := List.Nodup.append n3 (by simp : ([lit "task"] : List Str).Nodup)
      (by rw [List.disjoint_append_left, List.disjoint_append_left,
              List.disjoint_append_left]
          exact ⟨⟨⟨dST, dPT⟩, dAT⟩, dRT⟩)
    unfold get_labels_for_task
    exact n4
  · unfold get_labels_for_task
    exact List.getLast?_concat _

lemma no_two_starts {p q x : Str} (hp : p <+: x) (hq : q <+: x)
    (h : ¬ p <+: q) (h' : ¬ q <+: p) : False := by
  rcases List.prefix_or_prefix_of_prefix hp hq with hh | hh
  · exact h hh
  · exact h' hh

/-- C7: for every TaskRecord with a non-empty status field, the label
list contains `status:` followed by the status lowercased with every
space replaced by a hyphen — and no other label starting with
`status:` — while an empty status field produces no label starting
with `status:` at all. -/
theorem C7_status_label (t : TaskRecord) :
    (t.status ≠ [] →
       statusLabel t.status ∈ get_labels_for_task t ∧
       ∀ l ∈ get_labels_for_task t, lit "status:" <+: l →
         l = statusLabel t.status) ∧
    (t.status = [] →
       ∀ l ∈ get_labels_for_task t, ¬ (lit "status:" <+: l)) := by
  constructor
  · intro h
    constructor
    · have hmem : statusLabel t.status ∈ statusPart t := by
        unfold statusPart
        rw [if_neg h]
        simp
      simp [get_labels_for_task, List.mem_append, hmem]
    · intro l hl hpre
      rcases labels_mem_cases hl with hS | hP | hA | hR | rfl
      · unfold statusPart at hS
        rw [if_neg h] at hS
        simpa using hS
      · exact (no_two_starts hpre (mem_phasePart l hP)
          (by decide) (by decide)).elim
      · exact (no_two_starts hpre (mem_autoPart l hA)
          (by decide) (by decide)).elim
      · exact (no_two_starts hpre (mem_rolePart l hR)
          (by decide) (by decide)).elim
      · exact absurd hpre (by decide)
  · intro h l hl hpre
    rcases labels_mem_cases hl with hS | hP | hA | hR | rfl
    · unfold statusPart at hS
      rw [if_pos h] at hS
      simp at hS
    · exact no_two_starts hpre (mem_phasePart l hP) (by decide) (by decide)
    · exact no_two_starts hpre (mem_autoPart l hA) (by decide) (by decide)
    · exact no_two_starts hpre (mem_rolePart l hR) (by decide) (by decide)
    · exact absurd hpre (by decide)

/-- C6: for every TaskRecord with a non-empty assignee, the label list
contains the `role:` label of exactly those keywords of the fixed role
table that occur as a case-insensitive substring of the assignee text;
multiple matches all contribute their label. -/
theorem C6_role_labels (t : TaskRecord) (h : t.assignee ≠ []) :
    ∀ kw lab : Str, (kw, lab) ∈ roleTable →
      (lab ∈ get_labels_for_task t ↔ kw <:+: pyLower t.assignee) := by
  intro kw lab hmem
  have hrl : lit "role:" <+: lab ∧ lab ≠ lit "task" := by
    simp only [roleTable, List.mem_cons, List.not_mem_nil, or_false,
      Prod.mk.injEq] at hmem
    rcases hmem with ⟨-, rfl⟩ | ⟨-, rfl⟩ | ⟨-, rfl⟩ | ⟨-, rfl⟩ | ⟨-, rfl⟩ <;>
      exact ⟨by decide, by decide⟩
  have key : lab ∈ get_labels_for_task t ↔ lab ∈ rolePart t := by
    constructor
    · intro hl
      rcases labels_mem_cases hl with hS | hP | hA | hR | rfl
      · exact (no_two_starts (mem_statusPart lab hS) hrl.1
          (by decide) (by decide)).elim
      · exact (no_two_starts (mem_phasePart lab hP) hrl.1
          (by decide) (by decide)).elim
      · exact (no_two_starts (mem_autoPart lab hA) hrl.1
          (by decide) (by decide)).elim
      · exact hR
      · exact absurd rfl hrl.2
    · intro hr
      simp [get_labels_for_task, List.mem_append, hr]
  rw [key]
  unfold rolePart
  rw [if_neg h]
  simp only [List.mem_append, mem_ite_singleton]
  simp only [roleTable, List.mem_cons, List.not_mem_nil, or_false,
    Prod.mk.injEq] at hmem
  rcases hmem with ⟨rfl, rfl⟩ | ⟨rfl, rfl⟩ | ⟨rfl, rfl⟩ | ⟨rfl, rfl⟩ | ⟨rfl, rfl⟩
  · constructor
    · rintro ((((⟨hc, -⟩ | ⟨-, he⟩) | ⟨-, he⟩) | ⟨-, he⟩) | ⟨-, he⟩) <;>
        first | exact hc | exact absurd he (by decide)
    · intro hc
      exact Or.inl (Or.inl (Or.inl (Or.inl ⟨hc, rfl⟩)))
  · constructor
    · rintro ((((⟨-, he⟩ | ⟨hc, -⟩) | ⟨-, he⟩) | ⟨-, he⟩) | ⟨-, he⟩) <;>
        first | exact hc | exact absurd he (by decide)
    · intro hc
      exact Or.inl (Or.inl (Or.inl (Or.inr ⟨hc, rfl⟩)))
  · constructor
    · rintro ((((⟨-, he⟩ | ⟨-, he⟩) | ⟨hc, -⟩) | ⟨-, he⟩) | ⟨-, he⟩) <;>
        first | exact hc | exact absurd he (by decide)
    · intro hc
      exact Or.inl (Or.inl (Or.inr ⟨hc, rfl⟩))
  · constructor
    · rintro ((((⟨-, he⟩ | ⟨-, he⟩) | ⟨-, he⟩) | ⟨hc, -⟩) | ⟨-, he⟩) <;>
        first | exact hc | exact absurd he (by decide)
    · intro hc
      exact Or.inl (Or.inr ⟨hc, rfl⟩)
  · constructor
    · rintro ((((⟨-, he⟩ | ⟨-, he⟩) | ⟨-, he⟩) | ⟨-, he⟩) | ⟨hc, -⟩) <;>
        first | exact hc | exact absurd he (by decide)
    · intro hc
      exact Or.inr ⟨hc, rfl⟩

/-- C1: for every TaskRecord whose automation category is
case-insensitively equal to `human`, `manus` or `split`, the formatted
body contains that category's fixed boilerplate block and, later,
its matching Definition-of-Done checklist followed only by the fixed
footer; for any other automation category value (including empty), the
category block and the Definition-of-Done section are both empty
strings. -/
theorem C1_category_blocks (t : TaskRecord) :
    (ciEqual t.automation_category (lit "human") →
       ∃ pre mid, create_issue_body t =
         pre ++ humanSection ++ mid ++ humanDoD ++ bodyFooter t) ∧
    (ciEqual t.automation_category (lit "manus") →
       ∃ pre mid, create_issue_body t =
         pre ++ manusSection ++ mid ++ manusDoD ++ bodyFooter t) ∧
    (ciEqual t.automation_category (lit "split") →
       ∃ pre mid, create_issue_body t =
         pre ++ splitSection ++ mid ++ splitDoD ++ bodyFooter t) ∧
    (¬ ciEqual t.automation_category (lit "human") →
     ¬ ciEqual t.automation_category (lit "manus") →
     ¬ ciEqual t.automation_category (lit "split") →
       automation_section t = [] ∧ definition_of_done t = []) := by
  refine ⟨?_, ?_, ?_, ?_⟩
  · intro h
    have h' : pyUpper t.automation_category = lit "HUMAN" := by
      unfold ciEqual at h
      rw [h]
      decide
    refine ⟨bodyOverview t, bodyMiddle t, ?_⟩
    unfold create_issue_body automation_section definition_of_done
    rw [if_pos h', if_pos h']
  · intro h
    have h' : pyUpper t.automation_category = lit "MANUS" := by
      unfold ciEqual at h
      rw [h]
      decide
    have hneH : pyUpper t.automation_category ≠ lit "HUMAN" := by
      rw [h']
      decide
    refine ⟨bodyOverview t, bodyMiddle t, ?_⟩
    unfold create_issue_body automation_section definition_of_done
    rw [if_neg hneH, if_neg hneH, if_pos h', if_pos h']
  · intro h
    have h' : pyUpper t.automation_category = lit "SPLIT" := by
      unfold ciEqual at h
      rw [h]
      decide
    have hneH : pyUpper t.automation_category ≠ lit "HUMAN" := by
      rw [h']
      decide
    have hneM : pyUpper t.automation_category ≠ lit "MANUS" := by
      rw [h']
      decide
    refine ⟨bodyOverview t, bodyMiddle t, ?_⟩
    unfold create_issue_body automation_section definition_of_done
    rw [if_neg hneH, if_neg hneH, if_neg hneM, if_neg hneM, if_pos h', if_pos h']
  · intro h1 h2 h3
    have hneH : pyUpper t.automation_category ≠ lit "HUMAN" := fun hh => by
      apply h1
      unfold ciEqual
      rw [hh]
      decide
    have hneM : pyUpper t.automation_category ≠ lit "MANUS" := fun hh => by
      apply h2
      unfold ciEqual
      rw [hh]
      decide
    have hneS : pyUpper t.automation_category ≠ lit "SPLIT" := fun hh => by
      apply h3
      unfold ciEqual
      rw [hh]
      decide
    unfold automation_section definition_of_done
    rw [if_neg hneH, if_neg hneH, if_neg hneM, if_neg hneM,
        if_neg hneS, if_neg hneS]
    exact ⟨rfl, rfl⟩

lemma splitCommaSpace_ne_nil (s : Str) : splitCommaSpace s ≠ [] := by
  match s with
  | [] => simp [splitCommaSpace]
  | [c] => simp [splitCommaSpace]
  | c1 :: c2 :: rest =>
    unfold splitCommaSpace
    split
    · simp
    · cases h : splitCommaSpace (c2 :: rest) <;> simp [h]

/-- C2 counterexample: for the deliverables field `a,b` (a comma not
followed by a space), the code renders the single checkbox line
`- [ ] a,b`, not the two lines demanded by a split at every comma. -/
theorem C2_counterexample :
    checklist (lit "a,b") = [lit "- [ ] a,b"] ∧
    specCommaChecklist (lit "a,b") = [lit "- [ ] a", lit "- [ ] b"] ∧
    checklistSection (lit "a,b") ≠
      List.intercalate (lit "\n") (specCommaChecklist (lit "a,b")) := by
  decide

/-- C2 (amended): the deliverables field is split on the exact
two-character delimiter `", "` (a comma followed by a space), each
resulting entry is rendered, with surrounding whitespace trimmed, as
exactly one markdown checkbox line in the body's Deliverables section;
an empty field yields the single line `- [ ] To be defined`; the
identical transformation is applied to the acceptance-criteria field. -/
theorem C2_deliverables_amended (t : TaskRecord) :
    (∃ pre post, create_issue_body t =
       pre ++ lit "\n\n## Deliverables\n" ++ checklistSection t.deliverables ++
       lit "\n\n## Acceptance Criteria\n" ++
       checklistSection t.acceptance_criteria ++ post) ∧
    (t.deliverables = [] →
       checklistSection t.deliverables = lit "- [ ] To be defined") ∧
    (t.deliverables ≠ [] →
       checklist t.deliverables =
         (splitCommaSpace t.deliverables).map
           (fun e => lit "- [ ] " ++ pyStrip e) ∧
       (checklist t.deliverables).length =
         (splitCommaSpace t.deliverables).length ∧
       checklistSection t.deliverables =
         List.intercalate (lit "\n") (checklist t.deliverables)) ∧
    (t.acceptance_criteria = [] →
       checklistSection t.acceptance_criteria = lit "- [ ] To be defined") ∧
    (t.acceptance_criteria ≠ [] →
       checklist t.acceptance_criteria =
         (splitCommaSpace t.acceptance_criteria).map
           (fun e => lit "- [ ] " ++ pyStrip e) ∧
       (checklist t.acceptance_criteria).length =
         (splitCommaSpace t.acceptance_criteria).length ∧
       checklistSection t.acceptance_criteria =
         List.intercalate (lit "\n") (checklist t.acceptance_criteria)) := by
  refine ⟨?_, ?_, ?_, ?_, ?_⟩
  · refine ⟨bodyOverview t ++ automation_section t,
      lit "\n\n## Dependencies\nList any tasks that must be completed before this one:\n" ++
      dependenciesLine t ++
      lit "\n\n## Resources Needed\n- Access to: ___________\n- Credentials for: ___________\n- Approval from: ___________\n\n## Notes\n" ++
      notesLine t ++ lit "\n" ++ definition_of_done t ++ bodyFooter t, ?_⟩
    unfold create_issue_body bodyMiddle
    simp [List.append_assoc]
  · intro h
    simp [checklistSection, checklist, h]
  · intro h
    have hcl : checklist t.deliverables =
        (splitCommaSpace t.deliverables).map
          (fun e => lit "- [ ] " ++ pyStrip e) := by
      unfold checklist
      rw [if_neg h]
    have hne : checklist t.deliverables ≠ [] := by
      rw [hcl]
      simp only [ne_eq, List.map_eq_nil_iff]
      exact splitCommaSpace_ne_nil _
    refine ⟨hcl, by rw [hcl]; exact List.length_map _ _, ?_⟩
    unfold checklistSection
    rw [if_neg hne]
  · intro h
    simp [checklistSection, checklist, h]
  · intro h
    have hcl : checklist t.acceptance_criteria =
        (splitCommaSpace t.acceptance_criteria).map
          (fun e => lit "- [ ] " ++ pyStrip e) := by
      unfold checklist
      rw [if_neg h]
    have hne : checklist t.acceptance_criteria ≠ [] := by
      rw [hcl]
      simp only [ne_eq, List.map_eq_nil_iff]
      exact splitCommaSpace_ne_nil _
    refine ⟨hcl, by rw [hcl]; exact List.length_map _ _, ?_⟩
    unfold checklistSection
    rw [if_neg hne]

lemma rowGet_isSome_mem {col : Str} :
    ∀ {header row : List Str}, (rowGet header row col).isSome →
      col ∈ header := by
  intro header
  induction header with
  | nil => intro row h; simp [rowGet] at h
  | cons hd tl ih =>
    intro row h
    cases row with
    | nil =>
      simp only [rowGet] at h
      split at h
      · rename_i hc; rw [hc]; exact List.mem_cons_self _ _
      · exact List.mem_cons_of_mem _ (ih h)
    | cons v vs =>
      simp only [rowGet] at h
      split at h
      · rename_i hc; rw [hc]; exact List.mem_cons_self _ _
      · exact List.mem_cons_of_mem _ (ih h)

lemma mapM_some_isSome {f : Str → Option Str} :
    ∀ {l : List Str} {vs : List Str}, l.mapM f = some vs →
      ∀ x ∈ l, (f x).isSome := by
  intro l
  induction l with
  | nil => simp
  | cons hd tl ih =>
    intro vs h x hx
    rw [List.mapM_cons] at h
    rcases Option.bind_eq_some.mp h with ⟨v, hf, h2⟩
    rcases Option.bind_eq_some.mp h2 with ⟨ws, hm, h3⟩
    rcases List.mem_cons.mp hx with rfl | hx'
    · simp [hf]
    · exact ih hm x hx'

lemma readTask_some_cols {header row : List Str} {t : TaskRecord}
    (h : readTask header row = some t) :
    ∀ col ∈ requiredColumns, col ∈ header := by
  intro col hcol
  unfold readTask at h
  cases hm : requiredColumns.mapM (rowGet header row) with
  | none => rw [hm] at h; simp at h
  | some vs => exact rowGet_isSome_mem (mapM_some_isSome hm col hcol)

lemma readTask_none {header row : List Str}
    (h : ∃ col ∈ requiredColumns, col ∉ header) :
    readTask header row = none := by
  rcases h with ⟨col, hcol, hnot⟩
  cases hr : readTask header row with
  | none => rfl
  | some t => exact absurd (readTask_some_cols hr col hcol) hnot

/-- C3 counterexample: an input file whose header lacks every required
column but contains no data row is read successfully (the reader
returns an empty record list instead of failing), and the run then
proceeds to make all twenty-four bootstrap tracker calls. -/
theorem C3_counterexample :
    (lit "Task ID" ∈ requiredColumns ∧ lit "Task ID" ∉ emptyBadCsv.header) ∧
    read_tasks_from_csv (some emptyBadCsv) = .ok [] ∧
    (process_all_tasks (some emptyBadCsv) (fun _ => true)).2 = .ok ⟨0, 0, 0⟩ ∧
    ((process_all_tasks (some emptyBadCsv) (fun _ => true)).1).length = 24 := by
  exact ⟨⟨by decide, by decide⟩, rfl, rfl, rfl⟩

/-- C3 (amended): the record reader fails with `InputNotFound` whenever
the input file is missing, and with `InputMalformed` whenever a
required column is absent from the header and the file contains at
least one data row; both failures are fatal and happen before any
tracker call (the emitted call trace is empty). -/
theorem C3_reader_errors (file : Option Csv) (respond : Nat → Bool) :
    (file = none →
       process_all_tasks file respond = ([], .error .inputNotFound)) ∧
    (∀ csv, file = some csv → csv.rows ≠ [] →
       (∃ col ∈ requiredColumns, col ∉ csv.header) →
       process_all_tasks file respond = ([], .error .inputMalformed)) := by
  constructor
  · rintro rfl
    rfl
  · rintro csv rfl hrows hcol
    obtain ⟨hdr, rows⟩ := csv
    have hcol' : ∃ col ∈ requiredColumns, col ∉ hdr := hcol
    cases rows with
    | nil => exact absurd rfl hrows
    | cons r rs =>
      have hread : read_tasks_from_csv (some ⟨hdr, r :: rs⟩) =
          .error .inputMalformed := by
        show (match (r :: rs).mapM (readTask hdr) with
              | none => Except.error ReadError.inputMalformed
              | some ts => Except.ok ts) =
            Except.error ReadError.inputMalformed
        rw [List.mapM_cons, readTask_none hcol']
        rfl
      unfold process_all_tasks
      rw [hread]

lemma issuesLoopFrom_calls (respond : Nat → Bool) :
    ∀ (tasks : List TaskRecord) (i : Nat),
      (issuesLoopFrom respond tasks i).2 = tasks.map issue_data := by
  intro tasks
  induction tasks with
  | nil => intro i; rfl
  | cons t ts ih =>
    intro i
    by_cases h : respond i <;> simp [issuesLoopFrom, h, ih]

lemma issuesLoopFrom_counts (respond : Nat → Bool) :
    ∀ (tasks : List TaskRecord) (i : Nat),
      (issuesLoopFrom respond tasks i).1.1 +
        (issuesLoopFrom respond tasks i).1.2 = tasks.length := by
  intro tasks
  induction tasks with
  | nil => intro i; rfl
  | cons t ts ih =>
    intro i
    have := ih (i + 1)
    by_cases h : respond i <;> simp [issuesLoopFrom, h] <;> omega

/-- C4: for every sequence of records and every pattern of per-issue
success and failure reported by the tracker, the orchestrator submits
exactly one create-issue payload per record in input order (a failure
never stops the loop), and the final summary satisfies
succeeded + failed = n with total reported as n. -/
theorem C4_batch_loop (tasks : List TaskRecord) (respond : Nat → Bool) :
    (run_tasks tasks respond).2 = tasks.map issue_data ∧
    (run_tasks tasks respond).1.succeeded +
      (run_tasks tasks respond).1.failed = tasks.length ∧
    (run_tasks tasks respond).1.total = tasks.length := by
  refine ⟨?_, ?_, rfl⟩
  · exact issuesLoopFrom_calls respond tasks 0
  · exact issuesLoopFrom_counts respond tasks 0

/-- C5: during label and milestone bootstrap every catalog item is
processed no matter what the tracker answers (no response can halt the
run), a conflict response (`422`) is logged as already existing — an
outcome that is not a failure — and any other non-success status is
logged as a failure for that item alone. -/
theorem C5_bootstrap_tolerance (lr mr : Nat → BootResp) :
    (create_labels lr).length = labels_to_create.length ∧
    (create_milestones mr).length = milestones.length ∧
    (∀ i, i < labels_to_create.length → lr i = .status 422 →
       ∃ sp, (create_labels lr)[i]? = some (sp, .alreadyExists)) ∧
    (∀ i, i < milestones.length → mr i = .status 422 →
       ∃ sp, (create_milestones mr)[i]? = some (sp, .alreadyExists)) ∧
    BootOutcome.alreadyExists.isFailure = false ∧
    (∀ i c, i < labels_to_create.length → lr i = .status c →
       c ≠ 201 → c ≠ 422 →
       ∃ sp, (create_labels lr)[i]? = some (sp, .failed)) := by
  have hlab : ∀ (i : Nat) (hi : i < labels_to_create.length),
      (create_labels lr)[i]? =
        some (labels_to_create.get ⟨i, hi⟩, bootOutcome (lr i)) := by
    intro i hi
    simp [create_labels, List.getElem?_map, List.getElem?_enum,
      List.getElem?_eq_getElem hi, List.get_eq_getElem]
  have hmil : ∀ (i : Nat) (hi : i < milestones.length),
      (create_milestones mr)[i]? =
        some (milestones.get ⟨i, hi⟩, bootOutcome (mr i)) := by
    intro i hi
    simp [create_milestones, List.getElem?_map, List.getElem?_enum,
      List.getElem?_eq_getElem hi, List.get_eq_getElem]
  refine ⟨by simp [create_labels], by simp [create_milestones], ?_, ?_, rfl, ?_⟩
  · intro i hi hr
    exact ⟨labels_to_create.get ⟨i, hi⟩, by rw [hlab i hi, hr]; rfl⟩
  · intro i hi hr
    exact ⟨milestones.get ⟨i, hi⟩, by rw [hmil i hi, hr]; rfl⟩
  · intro i c hi hr h201 h422
    refine ⟨labels_to_create.get ⟨i, hi⟩, ?_⟩
    rw [hlab i hi, hr]
    simp [bootOutcome, h201, h422]

/-- C8: every payload submitted by the orchestrator carries the title
`"{id}: [{CATEGORY}] {name}"`: the record's identifier, the automation
category uppercased inside square brackets, then the task name. -/
theorem C8_issue_title_format (tasks : List TaskRecord) (respond : Nat → Bool) :
    ((run_tasks tasks respond).2).map IssuePayload.title =
      tasks.map (fun t =>
        t.task_id ++ lit ": [" ++ pyUpper t.automation_category ++
        lit "] " ++ t.task_name) := by
  have h := issuesLoopFrom_calls respond tasks 0
  simp only [run_tasks]
  rw [h, List.map_map]
  rfl

/-- C1 witness: the category blocks at the four sample records. -/
theorem C1_category_blocks_witness :
    (∃ pre mid, create_issue_body tHuman =
       pre ++ humanSection ++ mid ++ humanDoD ++ bodyFooter tHuman) ∧
    (∃ pre mid, create_issue_body tManus =
       pre ++ manusSection ++ mid ++ manusDoD ++ bodyFooter tManus) ∧
    (∃ pre mid, create_issue_body tSplit =
       pre ++ splitSection ++ mid ++ splitDoD ++ bodyFooter tSplit) ∧
    (automation_section tOther = [] ∧ definition_of_done tOther = []) :=
  ⟨(C1_category_blocks tHuman).1 (by decide),
   (C1_category_blocks tManus).2.1 (by decide),
   (C1_category_blocks tSplit).2.2.1 (by decide),
   (C1_category_blocks tOther).2.2.2 (by decide) (by decide) (by decide)⟩

/-- C2 witness: a record with deliverables `a, b` and empty acceptance
criteria. -/
theorem C2_deliverables_witness :
    checklist tDeliv.deliverables =
      (splitCommaSpace tDeliv.deliverables).map
        (fun e => lit "- [ ] " ++ pyStrip e) ∧
    checklistSection tDeliv.acceptance_criteria = lit "- [ ] To be defined" :=
  ⟨((C2_deliverables_amended tDeliv).2.2.1 (by decide)).1,
   (C2_deliverables_amended tDeliv).2.2.2.1 rfl⟩

/-- C3 witness: a missing file and a one-row file with a header missing
every required column. -/
theorem C3_reader_errors_witness :
    process_all_tasks none (fun _ => true) = ([], .error .inputNotFound) ∧
    process_all_tasks (some badCsv) (fun _ => true) =
      ([], .error .inputMalformed) :=
  ⟨(C3_reader_errors none (fun _ => true)).1 rfl,
   (C3_reader_errors (some badCsv) (fun _ => true)).2 badCsv rfl
     (by decide) ⟨lit "Task ID", by decide, by decide⟩⟩

/-- C5 witness: a run in which every bootstrap response is a conflict,
and a run in which every response is a server error. -/
theorem C5_bootstrap_tolerance_witness :
    (∃ sp, (create_labels (fun _ => .status 422))[0]? =
       some (sp, BootOutcome.alreadyExists)) ∧
    (∃ sp, (create_milestones (fun _ => .status 422))[0]? =
       some (sp, BootOutcome.alreadyExists)) ∧
    (∃ sp, (create_labels (fun _ => .status 500))[3]? =
       some (sp, BootOutcome.failed)) :=
  ⟨(C5_bootstrap_tolerance (fun _ => .status 422) (fun _ => .status 422)).2.2.1
      0 (by decide) rfl,
   (C5_bootstrap_tolerance (fun _ => .status 422) (fun _ => .status 422)).2.2.2.1
      0 (by decide) rfl,
   (C5_bootstrap_tolerance (fun _ => .status 500) (fun _ => .status 500)).2.2.2.2.2
      3 500 (by decide) rfl (by decide) (by decide)⟩

/-- C6 witness: an assignee naming both the technical lead and the
product manager contributes both role labels. -/
theorem C6_role_labels_witness :
    lit "role:technical-lead" ∈ get_labels_for_task tBoth ∧
    lit "role:product-manager" ∈ get_labels_for_task tBoth :=
  ⟨(C6_role_labels tBoth (by decide) (lit "technical lead")
      (lit "role:technical-lead") (by decide)).mpr (by decide),
   (C6_role_labels tBoth (by decide) (lit "product manager")
      (lit "role:product-manager") (by decide)).mpr (by decide)⟩

/-- C7 witness: status `In Progress` yields exactly the label
`status:in-progress`, and a record with empty status has no label
starting with `status:`. -/
theorem C7_status_label_witness :
    statusLabel tProg.status = lit "status:in-progress" ∧
    statusLabel tProg.status ∈ get_labels_for_task tProg ∧
    ∀ l ∈ get_labels_for_task blankTask, ¬ (lit "status:" <+: l) :=
  ⟨by decide,
   ((C7_status_label tProg).1 (by decide)).1,
   (C7_status_label blankTask).2 rfl⟩
